import Mathlib

/-
Verification of the Intercom connector module (intercom.py) against its
specification. The module is shallowly embedded: decoded JSON values are an
inductive tree, Python exceptions are an explicit error type threaded through
Except, pandas columns are lists of cells, and the HTTP client is a sequence of
responses indexed by request number (the page URL only selects which response
the server produces next, so the request index stands for the URL).
-/

namespace Intercom

/-- A decoded JSON value, as produced by response.json(). Intercom payloads
carry integer timestamps and counters, so numbers are modelled as integers;
no claim involves fractional values. -/
inductive Json where
  | null
  | bool (b : Bool)
  | num (n : Int)
  | str (s : String)
  | arr (elems : List Json)
  | obj (fields : List (String × Json))

mutual

/-- Structural equality of decoded JSON values, modelling the == used by the
source on decoded scalars (it only ever compares a decoded value against a
string literal, where Python == across types is False). -/
def Json.beq : Json → Json → Bool
  | .null, .null => true
  | .bool a, .bool b => a == b
  | .num a, .num b => a == b
  | .str a, .str b => a == b
  | .arr as, .arr bs => Json.beqList as bs
  | .obj as, .obj bs => Json.beqFields as bs
  | _, _ => false

/-- Element-wise equality of JSON arrays. -/
def Json.beqList : List Json → List Json → Bool
  | [], [] => true
  | a :: as, b :: bs => Json.beq a b && Json.beqList as bs
  | _, _ => false

/-- Element-wise equality of JSON object field lists. -/
def Json.beqFields : List (String × Json) → List (String × Json) → Bool
  | [], [] => true
  | (k1, v1) :: as, (k2, v2) :: bs => k1 == k2 && Json.beq v1 v2 && Json.beqFields as bs
  | _, _ => false

end

instance : BEq Json := ⟨Json.beq⟩

/-- Python exceptions that the module can raise or handle. httpRequestError is
httpx.RequestError (connection failure or timeout while performing the GET);
httpStatusError is httpx.HTTPStatusError, raised by raise_for_status on a
non-2xx response - in httpx the two are sibling classes, neither contains the
other. -/
inductive PyExc where
  | keyError (key : String)
  | typeError
  | valueError
  | attributeError
  | httpRequestError (msg : String)
  | httpStatusError (msg : String)
  | runtimeError (msg : String)
  deriving DecidableEq

/-- First-match association-list lookup. Python dicts and decoded JSON objects
have unique keys, so the first match is the only match. -/
def alookup {β : Type} : List (String × β) → String → Option β
  | [], _ => Option.none
  | (k, v) :: rest, key => if k == key then some v else alookup rest key

/-- Python truthiness of a decoded JSON value: None, False, 0, empty string,
empty list and empty dict are falsy, everything else is truthy. -/
def truthy : Json → Bool
  | .null => false
  | .bool b => b
  | .num n => n != 0
  | .str s => !s.isEmpty
  | .arr xs => !xs.isEmpty
  | .obj kvs => !kvs.isEmpty

/-- Python subscript obj[key] with a string key: on a dict it is lookup,
raising KeyError when the key is absent; on any other value (None, list,
string, number, bool) a string subscript raises TypeError. -/
def pyGetItem (j : Json) (key : String) : Except PyExc Json :=
  match j with
  | .obj kvs =>
    match alookup kvs key with
    | some v => .ok v
    | Option.none => .error (.keyError key)
  | _ => .error .typeError

/-- Python iteration over a decoded JSON value: a list yields its elements, a
dict yields its keys, a string yields its one-character substrings; iterating
None, a number or a bool raises TypeError. -/
def pyIter : Json → Except PyExc (List Json)
  | .arr xs => .ok xs
  | .obj kvs => .ok (kvs.map (fun kv => .str kv.1))
  | .str s => .ok (s.toList.map (fun c => .str (String.mk [c])))
  | _ => .error .typeError

/-- Python membership test with a string on the left: on a dict it tests keys,
on a list it tests elements, on a string it is a substring test (the needles
used by the module are nonempty, for which splitOn detects occurrence);
on None, numbers and bools the in operator raises TypeError. -/
def pyContains (j : Json) (key : String) : Except PyExc Bool :=
  match j with
  | .obj kvs => .ok (kvs.any (fun kv => kv.1 == key))
  | .arr xs => .ok (xs.contains (.str key))
  | .str s => .ok ((s.splitOn key).length != 1)
  | _ => .error .typeError

/-- The descent loop inside read_raw_value (intercom.py lines 38-39): repeated
subscripting along the path, stopping at the first raised exception. -/
def descend (obj : Json) : List String → Except PyExc Json
  | [] => .ok obj
  | part :: rest =>
    match pyGetItem obj part with
    | .ok v => descend v rest
    | .error e => .error e

/-- read_raw_value (intercom.py lines 35-42): descend the path key by key
inside a try block whose only handler is except KeyError, which returns None.
A TypeError from subscripting a non-dict value on the path propagates. -/
def read_raw_value (user : Json) (path : List String) : Except PyExc (Option Json) :=
  match descend user path with
  | .ok v => .ok (some v)
  | .error (.keyError _) => .ok Option.none
  | .error e => .error e

/-- True when descending the path only ever subscripts dict values: at every
level the current value either is a dict (whether or not it has the next key)
or the path is exhausted. Under this condition no TypeError can arise. -/
def dictsAlong : Json → List String → Bool
  | _, [] => true
  | Json.obj kvs, part :: rest =>
    match alookup kvs part with
    | some v => dictsAlong v rest
    | Option.none => true
  | _, _ :: _ => false

/-- True when the descent hits a dict that lacks the next path key, i.e. the
source loop raises KeyError at some level. -/
def keyAbsent : Json → List String → Bool
  | _, [] => false
  | Json.obj kvs, part :: rest =>
    match alookup kvs part with
    | some v => keyAbsent v rest
    | Option.none => true
  | _, _ :: _ => false

/-- One cell of a pandas column. na models a pandas missing value (Python
None, np.nan or NaT); obj holds a raw decoded-JSON value in an object-dtype
column; int32 and time model cells after astype(np.int32) and
pd.to_datetime(..., unit="s") respectively. -/
inductive Cell where
  | na
  | obj (j : Json)
  | int32 (n : Int)
  | time (n : Int)

/-- The fixed (column name, nested path) list of intercom.py lines 17-32. -/
def Columns : List (String × List String) :=
  [("email", ["email"]),
   ("name", ["name"]),
   ("city", ["location_data", "city_name"]),
   ("country", ["location_data", "country_name"]),
   ("session_count", ["session_count"]),
   ("last_request_at", ["last_request_at"]),
   ("social_profiles", ["social_profiles", "social_profiles"]),
   ("companies", ["companies", "companies"]),
   ("segments", ["segments", "segments"]),
   ("tags", ["tags", "tags"]),
   ("timezone", ["location_data", "timezone"]),
   ("created_at", ["created_at"]),
   ("updated_at", ["updated_at"]),
   ("id", ["id"])]

/-- read_column (lines 45-50): one object-dtype cell per user; a raw None
from read_raw_value becomes a missing cell. An uncaught exception from
read_raw_value propagates from the first offending user. -/
def read_column (users : List Json) (path : List String) : Except PyExc (List Cell) :=
  users.mapM (fun user =>
    match read_raw_value user path with
    | .ok (some v) => Except.ok (Cell.obj v)
    | .ok Option.none => Except.ok Cell.na
    | .error e => Except.error e)

/-- The inner find_names of ids_to_names (lines 58-62): the comprehension
evaluates d["id"] (KeyError when absent) and keeps names.get(d["id"]) for the
ids present in the str-keyed mapping. A non-string hashable id is never equal
to a string key, so it is dropped; an unhashable id (list or dict) raises
TypeError at the membership test. -/
def find_names (names : List (String × String)) : List Json → Except PyExc (List String)
  | [] => .ok []
  | d :: rest =>
    match pyGetItem d "id" with
    | .error e => .error e
    | .ok (Json.arr _) => .error .typeError
    | .ok (Json.obj _) => .error .typeError
    | .ok (Json.str s) =>
      match find_names names rest with
      | .error e => .error e
      | .ok tail =>
        match alookup names s with
        | some n => .ok (n :: tail)
        | Option.none => .ok tail
    | .ok _ => find_names names rest

/-- Iteration over one column cell: the cell holds the decoded value that the
source iterates, so a missing cell (Python None) raises TypeError. -/
def cellIter : Cell → Except PyExc (List Json)
  | .obj j => pyIter j
  | _ => .error .typeError

/-- ids_to_names (lines 53-66): per cell, join the resolved names with the
literal separator. dtype=str and astype("category") keep the string values
unchanged, so they leave no trace at the value level. -/
def ids_to_names (objs : List Cell) (names : List (String × String)) :
    Except PyExc (List Cell) :=
  objs.mapM (fun c =>
    match cellIter c with
    | .error e => Except.error e
    | .ok ds =>
      match find_names names ds with
      | .error e => Except.error e
      | .ok ns => Except.ok (Cell.obj (Json.str (String.intercalate "; " ns))))

/-- The inner find_username of extract_social_media_username (lines 74-83):
first profile whose name field equals the service string; the generator raises
KeyError if a scanned profile lacks "name", or if the matching profile lacks
"username"; an exhausted generator (StopIteration) is caught and gives np.nan. -/
def find_username (service : String) : List Json → Except PyExc (Option Json)
  | [] => .ok Option.none
  | p :: rest =>
    match pyGetItem p "name" with
    | .error e => .error e
    | .ok namev =>
      if namev == Json.str service then
        match pyGetItem p "username" with
        | .error e => .error e
        | .ok u => .ok (some u)
      else
        find_username service rest

/-- extract_social_media_username (lines 69-85): one Optional[str] cell per
input cell; pd.Series(..., dtype=str) in pandas 0.25 preserves missing values,
so an absent profile stays a missing cell, not an empty string. -/
def extract_social_media_username (objs : List Cell) (service : String) :
    Except PyExc (List Cell) :=
  objs.mapM (fun c =>
    match cellIter c with
    | .error e => Except.error e
    | .ok profiles =>
      match find_username service profiles with
      | .error e => Except.error e
      | .ok (some u) => Except.ok (Cell.obj u)
      | .ok Option.none => Except.ok Cell.na)

/-- Wrap an integer into the range of a 32-bit signed integer, as numpy astype
does on overflow. -/
def int32_of (n : Int) : Int := (n + 2 ^ 31) % 2 ^ 32 - 2 ^ 31

/-- astype(np.int32) on one object-dtype cell (pandas 0.25 converts each
element with int): a missing cell is int(None), which raises TypeError; a
numeric string parses as int(s) and a non-numeric one raises ValueError; any
other object raises TypeError. -/
def astype_int32_cell : Cell → Except PyExc Cell
  | .na => .error .typeError
  | .obj (.num n) => .ok (.int32 (int32_of n))
  | .obj (.bool b) => .ok (.int32 (if b then 1 else 0))
  | .obj (.str s) =>
    match s.toInt? with
    | some n => .ok (.int32 (int32_of n))
    | Option.none => .error .valueError
  | _ => .error .typeError

/-- astype(np.int32) on a whole column. -/
def astype_int32 (col : List Cell) : Except PyExc (List Cell) :=
  col.mapM astype_int32_cell

/-- pd.to_datetime(col, unit="s") on one cell: missing values (None, NaN)
stay missing (NaT); an integer epoch value becomes a timestamp; a decoded JSON
null in the column also becomes NaT; other values raise. -/
def to_datetime_cell : Cell → Except PyExc Cell
  | .na => .ok .na
  | .obj .null => .ok .na
  | .obj (.num n) => .ok (.time n)
  | .obj (.str s) =>
    match s.toInt? with
    | some n => .ok (.time n)
    | Option.none => .error .valueError
  | _ => .error .valueError

/-- pd.to_datetime(col, unit="s") on a whole column. -/
def to_datetime (col : List Cell) : Except PyExc (List Cell) :=
  col.mapM to_datetime_cell

/-- astype("category") keeps every cell value (missing stays missing); the
categorical encoding is a storage detail with no effect at the value level. -/
def astype_category (col : List Cell) : List Cell := col

/-- A pandas DataFrame at the value level: named columns in order. -/
abbrev Frame := List (String × List Cell)

/-- Column read table[name]; every read in build_dataframe is of a column that
is present, so the default branch is unreached there. -/
def getCol (t : Frame) (name : String) : List Cell :=
  (alookup t name).getD []

/-- Column assignment table[name] = col: replaces the value of an existing
column, keeping its position. -/
def setCol (t : Frame) (name : String) (col : List Cell) : Frame :=
  t.map (fun kv => if kv.1 == name then (name, col) else kv)

/-- table.columns.get_loc(name): ordinal position of a column. -/
def colIndex : Frame → String → Nat
  | [], _ => 0
  | (k, _) :: rest, name => if k == name then 0 else colIndex rest name + 1

/-- table.pop(name): the table without the named column. -/
def popCol (t : Frame) (name : String) : Frame :=
  t.filter (fun kv => kv.1 != name)

/-- table.insert(i, name, col): insert a named column at ordinal position i. -/
def insertAt (t : Frame) (i : Nat) (kv : String × List Cell) : Frame :=
  t.take i ++ [kv] ++ t.drop i

/-- build_dataframe (lines 152-193), with each conversion applied in source
order so that the first raised exception is the same one the source raises. -/
def build_dataframe (users : List Json) (companies segments tags : List (String × String)) :
    Except PyExc Frame := do
  let t0 ← Columns.mapM (fun c => do
    let col ← read_column users c.2
    pure (c.1, col))
  let t1 := setCol t0 "city" (astype_category (getCol t0 "city"))
  let t2 := setCol t1 "country" (astype_category (getCol t1 "country"))
  let sess ← astype_int32 (getCol t2 "session_count")
  let t3 := setCol t2 "session_count" sess
  let lra ← to_datetime (getCol t3 "last_request_at")
  let t4 := setCol t3 "last_request_at" lra
  let ca ← to_datetime (getCol t4 "created_at")
  let t5 := setCol t4 "created_at" ca
  let ua ← to_datetime (getCol t5 "updated_at")
  let t6 := setCol t5 "updated_at" ua
  let comp ← ids_to_names (getCol t6 "companies") companies
  let t7 := setCol t6 "companies" comp
  let seg ← ids_to_names (getCol t7 "segments") segments
  let t8 := setCol t7 "segments" seg
  let tg ← ids_to_names (getCol t8 "tags") tags
  let t9 := setCol t8 "tags" tg
  let idx := colIndex t9 "social_profiles"
  let profiles := getCol t9 "social_profiles"
  let t10 := popCol t9 "social_profiles"
  let fb ← extract_social_media_username profiles "facebook"
  let t11 := insertAt t10 idx ("facebook_username", fb)
  let li ← extract_social_media_username profiles "linkedin"
  let t12 := insertAt t11 (idx + 1) ("linkedin_username", li)
  let tw ← extract_social_media_username profiles "twitter"
  pure (insertAt t12 (idx + 2) ("twitter_username", tw))

/-- What the server does to one page request: fail at the transport layer
(httpx.RequestError: connection failure or timeout), answer with a non-2xx
status (raise_for_status then raises httpx.HTTPStatusError), or answer 2xx
with a decoded JSON body. -/
inductive Resp where
  | requestError (msg : String)
  | statusError (msg : String)
  | ok (body : Json)

/-- The page cap (intercom.py line 10). -/
def MaxNPages : Nat := 50

/-- The message of the RuntimeError raised when a response is not a JSON
object (line 112). -/
def notObjectMsg : String := "Intercom did not return a JSON Object"

/-- The message of the RuntimeError raised when a response object lacks the
expected result key (line 114). -/
def missingKeyMsg (data_key : String) : String :=
  "Intercom did not return \"" ++ data_key ++ "\" data"

/-- What one loop iteration makes the pagination loop do next: raise an
exception, stop after the current page, or follow the next-page link. -/
inductive PageStep where
  | fail (e : PyExc)
  | last (items : List Json)
  | more (items : List Json)

/-- Lines 113-116 for an object body: the result array under the result key;
a missing key raises the missing-key RuntimeError, and extend iterates the
stored value. -/
def pageItems (kvs : List (String × Json)) (data_key : String) : Except PyExc (List Json) :=
  match alookup kvs data_key with
  | Option.none => .error (.runtimeError (missingKeyMsg data_key))
  | some v => pyIter v

/-- Lines 118-121 for an object body: the next-page link, if the loop is to
continue. No pagination block means stop; a present block is subscripted with
"next" (raising KeyError or TypeError when malformed). -/
def pageNext (kvs : List (String × Json)) : Except PyExc (Option Json) :=
  match alookup kvs "pages" with
  | Option.none => .ok Option.none
  | some pagesv =>
    match pyGetItem pagesv "next" with
    | .error e => .error e
    | .ok nextv => .ok (some nextv)

/-- One full iteration of the pagination loop (lines 102-121) on the current
response: transport and status failures raise, a non-object body raises the
not-an-object RuntimeError, and otherwise the page contributes its items and
the loop continues only on a truthy next link. -/
def pageStep (r : Resp) (data_key : String) : PageStep :=
  match r with
  | .requestError m => .fail (.httpRequestError m)
  | .statusError m => .fail (.httpStatusError m)
  | .ok (Json.obj kvs) =>
    match pageItems kvs data_key with
    | .error e => .fail e
    | .ok items =>
      match pageNext kvs with
      | .error e => .fail e
      | .ok Option.none => .last items
      | .ok (some nextv) => if truthy nextv then .more items else .last items
  | .ok _ => .fail (.runtimeError notObjectMsg)

/-- The pagination loop of fetch_paginated (lines 101-121). fuel is the number
of loop iterations left (range(MaxNPages)); i is the position of the next
request in the global request sequence; the returned Nat is the position after
the loop, i.e. the total number of requests issued so far. -/
def fetch_paginated_go (responses : Nat → Resp) (data_key : String) :
    Nat → Nat → List Json → Nat × Except PyExc (List Json)
  | 0, i, results => (i, .ok results)
  | fuel + 1, i, results =>
    match pageStep (responses i) data_key with
    | .fail e => (i + 1, .error e)
    | .last items => (i + 1, .ok (results ++ items))
    | .more items => fetch_paginated_go responses data_key fuel (i + 1) (results ++ items)

/-- fetch_paginated (lines 88-123), started at position start of the global
request sequence. -/
def fetch_paginated (responses : Nat → Resp) (data_key : String) (start : Nat) :
    Nat × Except PyExc (List Json) :=
  fetch_paginated_go responses data_key MaxNPages start []

/-- Insertion into a Python dict: an existing key keeps its position and gets
the new value, a new key is appended. -/
def dictInsert (d : List (String × String)) (k v : String) : List (String × String) :=
  if d.any (fun p => p.1 == k) then d.map (fun p => if p.1 == k then (k, v) else p)
  else d ++ [(k, v)]

/-- The id and name of one reference record, as read by the comprehensions of
lines 129-133, 139 and 145. Intercom ids and names are strings (spec section
3); a record whose id or name is not a string falls outside every claim and is
mapped to a TypeError sentinel. -/
def refPairOf (record : Json) : Except PyExc (String × String) :=
  match pyGetItem record "id" with
  | .error e => .error e
  | .ok idv =>
    match pyGetItem record "name" with
    | .error e => .error e
    | .ok namev =>
      match idv, namev with
      | .str i, .str n => .ok (i, n)
      | _, _ => .error .typeError

/-- The dict comprehension of fetch_companies (lines 129-133), as the loop it
denotes with the dict built so far in acc: records lacking a name field are
skipped; later records override earlier ones with the same id, as in a Python
dict. -/
def companiesToMapFrom (acc : List (String × String)) :
    List Json → Except PyExc (List (String × String))
  | [] => .ok acc
  | c :: rest =>
    match pyContains c "name" with
    | .error e => .error e
    | .ok true =>
      match refPairOf c with
      | .error e => .error e
      | .ok p => companiesToMapFrom (dictInsert acc p.1 p.2) rest
    | .ok false => companiesToMapFrom acc rest

/-- The dict comprehension of fetch_companies, started from the empty dict. -/
def companiesToMap (companies : List Json) : Except PyExc (List (String × String)) :=
  companiesToMapFrom [] companies

/-- The dict comprehensions of fetch_segments (line 139) and fetch_tags (line
145), as the loops they denote: every record is assumed to have id and name,
with no defensive skip. -/
def refListToMapFrom (acc : List (String × String)) :
    List Json → Except PyExc (List (String × String))
  | [] => .ok acc
  | r :: rest =>
    match refPairOf r with
    | .error e => .error e
    | .ok p => refListToMapFrom (dictInsert acc p.1 p.2) rest

/-- The segment and tag comprehensions, started from the empty dict. -/
def refListToMap (records : List Json) : Except PyExc (List (String × String)) :=
  refListToMapFrom [] records

/-- The four sequential fetches of lines 205-208, sharing one global request
sequence: users, then companies, then segments, then tags, each a full
paginated fetch; the first exception aborts the remaining fetches. Returns
the total number of requests issued and either the fetched data or the
exception. -/
def runFetches (responses : Nat → Resp) :
    Nat × Except PyExc
      (List Json × List (String × String) × List (String × String) × List (String × String)) :=
  match fetch_paginated responses "users" 0 with
  | (i1, .error e) => (i1, .error e)
  | (i1, .ok users) =>
    match fetch_paginated responses "companies" i1 with
    | (i2, .error e) => (i2, .error e)
    | (i2, .ok comps) =>
      match companiesToMap comps with
      | .error e => (i2, .error e)
      | .ok companies =>
        match fetch_paginated responses "segments" i2 with
        | (i3, .error e) => (i3, .error e)
        | (i3, .ok segs) =>
          match refListToMap segs with
          | .error e => (i3, .error e)
          | .ok segments =>
            match fetch_paginated responses "tags" i3 with
            | (i4, .error e) => (i4, .error e)
            | (i4, .ok tgs) =>
              match refListToMap tgs with
              | .error e => (i4, .error e)
              | .ok tags => (i4, .ok (users, companies, segments, tags))

/-- What the entry point hands back to the host: a rendered i18n message (its
id and its default text with arguments substituted), a built table, or an
exception that escapes fetch uncaught. -/
inductive FetchResult where
  | message (transId : String) (text : String)
  | table (t : Frame)
  | exc (e : PyExc)

/-- Line 197: (secrets.get("access_token") or ...).get("secret"). The or
falls back to an empty dict when the access_token entry is missing or falsy;
calling .get on a truthy non-dict raises AttributeError. -/
def secret_value (secrets : List (String × Json)) : Except PyExc Json :=
  let raw := (alookup secrets "access_token").getD Json.null
  let fallback := if truthy raw then raw else Json.obj []
  match fallback with
  | Json.obj kvs => .ok ((alookup kvs "secret").getD Json.null)
  | _ => .error PyExc.attributeError

/-- fetch (lines 196-222). The request count in the result counts the
client.get calls actually performed. Only httpx.RequestError and RuntimeError
are caught (lines 209-220); raise_for_status raises httpx.HTTPStatusError,
which is not a RequestError, so it escapes, as do KeyError and TypeError; and
build_dataframe runs after the try block, so its exceptions also escape. -/
def fetch (secrets : List (String × Json)) (responses : Nat → Resp) : Nat × FetchResult :=
  match secret_value secrets with
  | .error e => (0, .exc e)
  | .ok access_token =>
    if truthy access_token then
      match pyGetItem access_token "access_token" with
      | .error e => (0, .exc e)
      | .ok _bearer =>
        match runFetches responses with
        | (n, .ok (users, companies, segments, tags)) =>
          match build_dataframe users companies segments tags with
          | .ok t => (n, .table t)
          | .error e => (n, .exc e)
        | (n, .error (.httpRequestError m)) =>
          (n, .message "error.httpError.general" ("Error querying Intercom: " ++ m))
        | (n, .error (.runtimeError m)) =>
          (n, .message "error.unexpectedIntercomJson.general"
            ("Error handling Intercom response: " ++ m))
        | (n, .error e) => (n, .exc e)
    else
      (0, .message "badParam.access_token.empty" "Please sign in to Intercom")

/-- A well-formed page body for result key data_key: the result array, and
either no pagination block or a pagination block with a next value. -/
def mkPage (data_key : String) (items : List Json) : Option Json → Json
  | Option.none => Json.obj [(data_key, Json.arr items)]
  | some nextv => Json.obj [(data_key, Json.arr items), ("pages", Json.obj [("next", nextv)])]

/-- Whether page i carries a next-page link: a pagination block is present and
its next value is truthy (a nonempty URL). -/
def hasNext (next : Nat → Option Json) (i : Nat) : Bool :=
  match next i with
  | Option.none => false
  | some v => truthy v

/-- Number of pages the loop consumes starting at page i with fuel iterations
left: one page always, plus the rest while the current page has a next link. -/
def pagesUsed (nx : Nat → Bool) : Nat → Nat → Nat
  | 0, _ => 0
  | fuel + 1, i => 1 + if nx i then pagesUsed nx fuel (i + 1) else 0

/-- Formalisation of the words of claim C2 for one row: the names of exactly
those reference objects whose id is present in the mapping, in the original
list order, joined with the literal separator. -/
def rowNamesSpec (names : List (String × String)) (ds : List Json) : String :=
  String.intercalate "; "
    (ds.filterMap (fun d =>
      match pyGetItem d "id" with
      | .ok (Json.str s) => alookup names s
      | _ => Option.none))

/-- The resolvable references of one row, per the words of claim C2. -/
def resolvable (names : List (String × String)) (ds : List Json) : List String :=
  ds.filterMap (fun d =>
    match pyGetItem d "id" with
    | .ok (Json.str s) => alookup names s
    | _ => Option.none)

/-- Formalisation of the words of claim C4 for one row: the username of the
first profile whose name field equals the service string, if any. -/
def usernameSpec (service : String) (ps : List Json) : Option Json :=
  match ps.find? (fun p =>
      match pyGetItem p "name" with
      | .ok v => v == Json.str service
      | .error _ => false) with
  | some p =>
    match pyGetItem p "username" with
    | .ok u => some u
    | .error _ => Option.none
  | Option.none => Option.none

/-- A company record as the fetch_companies comprehension can consume it
without leaving the modelled (string id, string name) domain: a dict, and when
it has a name field, both its id and its name are strings. -/
def wellFormedCompany : Json → Bool
  | Json.obj kvs =>
    (match alookup kvs "name" with
     | Option.none => true
     | some namev =>
       match alookup kvs "id", namev with
       | some (Json.str _), Json.str _ => true
       | _, _ => false)
  | _ => false

/-- The (id, name) pairs of exactly those records that have a name field, in
fetch order, per the words of claim C9. -/
def namedPairs (records : List Json) : List (String × String) :=
  records.filterMap (fun r =>
    match r with
    | Json.obj kvs =>
      match alookup kvs "name" with
      | some (Json.str n) =>
        (match alookup kvs "id" with
         | some (Json.str i) => some (i, n)
         | _ => Option.none)
      | _ => Option.none
    | _ => Option.none)

/-- Last-wins lookup in a pair list: the value of the last pair with the given
key, which is what repeated Python dict insertion leaves behind. -/
def lastNameFor : List (String × String) → String → Option String
  | [], _ => Option.none
  | p :: rest, i =>
    match lastNameFor rest i with
    | some n => some n
    | Option.none => if p.1 == i then some p.2 else Option.none

/-- The named column of a successfully built table, if the build succeeded. -/
def colOf (r : Except PyExc Frame) (name : String) : Option (List Cell) :=
  match r with
  | .ok t => alookup t name
  | .error _ => Option.none

/-- True when the build succeeded and every column has exactly n rows. -/
def rowCountIs (r : Except PyExc Frame) (n : Nat) : Bool :=
  match r with
  | .ok t => t.all (fun kv => kv.2.length == n)
  | .error _ => false

/-- A host secrets record carrying a usable bearer token, for the entry-point
theorems. -/
def goodSecrets : List (String × Json) :=
  [("access_token", Json.obj [("secret", Json.obj [("access_token", Json.str "tok")])])]

/-- The user record of the scenario of claim C3, exactly as the claim states
it: companies and social_profiles are bare lists. -/
def c3user : Json :=
  Json.obj
    [("id", Json.str "1"),
     ("companies", Json.arr [Json.obj [("id", Json.str "c1")]]),
     ("social_profiles",
      Json.arr [Json.obj [("name", Json.str "twitter"), ("username", Json.str "bob")]])]

/-- The scenario user amended to the shape the code actually reads: the
Intercom payload nests each membership list one level down (path
["companies", "companies"] and so on), the session_count must be present for
astype(np.int32), and segments and tags must hold (empty) lists for
ids_to_names to iterate. -/
def c3userAmended : Json :=
  Json.obj
    [("id", Json.str "1"),
     ("session_count", Json.num 0),
     ("companies", Json.obj [("companies", Json.arr [Json.obj [("id", Json.str "c1")]])]),
     ("social_profiles",
      Json.obj [("social_profiles",
        Json.arr [Json.obj [("name", Json.str "twitter"), ("username", Json.str "bob")]])]),
     ("segments", Json.obj [("segments", Json.arr [])]),
     ("tags", Json.obj [("tags", Json.arr [])])]

/-- A one-page server for the claim C1 witness: every request is answered by
a well-formed users page without a pagination block. -/
def c1Responses : Nat → Resp := fun _ => Resp.ok (mkPage "users" [Json.str "u"] Option.none)

/-- The items of every page of the C1 witness server. -/
def c1Items : Nat → List Json := fun _ => [Json.str "u"]

/-- The next links of the C1 witness server: none. -/
def c1Next : Nat → Option Json := fun _ => Option.none

/-- A response sequence exercising claim C10 end to end: a users page whose
single user has location_data explicitly null, then empty companies, segments
and tags pages. -/
def respC10 : Nat → Resp := fun i =>
  if i == 0 then
    Resp.ok (Json.obj [("users", Json.arr [Json.obj [("location_data", Json.null)]])])
  else if i == 1 then Resp.ok (Json.obj [("companies", Json.arr [])])
  else if i == 2 then Resp.ok (Json.obj [("segments", Json.arr [])])
  else Resp.ok (Json.obj [("tags", Json.arr [])])

/- ------------------------------------------------------------------ -/
/- Helper lemmas                                                      -/
/- ------------------------------------------------------------------ -/

/-- mapM in the Except monad succeeds pointwise: if every element maps to ok,
the whole list maps to ok of the pointwise images. -/
theorem mapM_ok {α β : Type} (f : α → Except PyExc β) (g : α → β) (l : List α)
    (h : ∀ a ∈ l, f a = Except.ok (g a)) : l.mapM f = Except.ok (l.map g) := by
  induction l with
  | nil => rfl
  | cons a as ih =>
    rw [List.mapM_cons, h a (by simp), ih (fun a' ha' => h a' (by simp [ha']))]
    rfl

/-- Descending a dict that has the next key continues with the stored value. -/
theorem read_raw_value_cons_found (kvs : List (String × Json)) (part : String)
    (rest : List String) (v : Json) (hl : alookup kvs part = some v) :
    read_raw_value (Json.obj kvs) (part :: rest) = read_raw_value v rest := by
  unfold read_raw_value
  simp [descend, pyGetItem, hl]

/-- Descent along an appended path runs the two halves in sequence. -/
theorem descend_append (pre post : List String) (user : Json) :
    descend user (pre ++ post) =
      match descend user pre with
      | .ok v => descend v post
      | .error e => Except.error e := by
  induction pre generalizing user with
  | nil => simp [descend]
  | cons part rest ih =>
    simp only [List.cons_append, descend]
    cases pyGetItem user part with
    | ok v => exact ih v
    | error e => rfl

/- ------------------------------------------------------------------ -/
/- Claim theorems                                                     -/
/- ------------------------------------------------------------------ -/

/-- C3 counterexample: on the input exactly as the claim states it - the
companies and social_profiles fields are bare lists - reading the fixed path
["social_profiles", "social_profiles"] subscripts a list with a string, which
raises a TypeError that read_raw_value does not catch, so building the output
table does not succeed: it raises instead of yielding a row. -/
theorem c3_counterexample :
    build_dataframe [c3user] [("c1", "Acme")] [] [] = Except.error PyExc.typeError := rfl

/-- C3 amended: on the scenario user reshaped to what the code actually reads
(each membership list nested one level down as the Intercom payload nests it,
session_count present for astype(np.int32), segments and tags present as empty
lists for ids_to_names to iterate), building the table succeeds and yields
exactly one row with companies "Acme", twitter_username "bob", and missing
facebook_username and linkedin_username. -/
theorem c3_amended_scenario :
    colOf (build_dataframe [c3userAmended] [("c1", "Acme")] [] []) "companies"
        = some [Cell.obj (Json.str "Acme")] ∧
    colOf (build_dataframe [c3userAmended] [("c1", "Acme")] [] []) "twitter_username"
        = some [Cell.obj (Json.str "bob")] ∧
    colOf (build_dataframe [c3userAmended] [("c1", "Acme")] [] []) "facebook_username"
        = some [Cell.na] ∧
    colOf (build_dataframe [c3userAmended] [("c1", "Acme")] [] []) "linkedin_username"
        = some [Cell.na] ∧
    rowCountIs (build_dataframe [c3userAmended] [("c1", "Acme")] [] []) 1 = true :=
  ⟨rfl, rfl, rfl, rfl, rfl⟩

/-- C7: over any user record and any column path, as long as the descent only
ever subscripts dict levels (the regime in which a key can be said to be
absent at a level), an absent key at any level makes the extracted value null
and never an error, and when no key is absent the extraction succeeds with a
value. -/
theorem c7_absent_key_gives_null (user : Json) (path : List String)
    (h : dictsAlong user path = true) :
    (keyAbsent user path = true → read_raw_value user path = Except.ok Option.none) ∧
    (keyAbsent user path = false → ∃ v, read_raw_value user path = Except.ok (some v)) := by
  induction path generalizing user with
  | nil =>
    refine ⟨fun hk => ?_, fun _ => ⟨user, rfl⟩⟩
    simp [keyAbsent] at hk
  | cons part rest ih =>
    cases user with
    | obj kvs =>
      cases hl : alookup kvs part with
      | none =>
        refine ⟨fun _ => ?_, fun hk => ?_⟩
        · unfold read_raw_value
          simp [descend, pyGetItem, hl]
        · exfalso
          rw [keyAbsent, hl] at hk
          exact absurd hk (by simp)
      | some v =>
        have hd : dictsAlong v rest = true := by rwa [dictsAlong, hl] at h
        have hrec := ih v hd
        rw [read_raw_value_cons_found kvs part rest v hl]
        refine ⟨fun hk => ?_, fun hk => ?_⟩
        · exact hrec.1 (by rwa [keyAbsent, hl] at hk)
        · exact hrec.2 (by rwa [keyAbsent, hl] at hk)
    | null => simp [dictsAlong] at h
    | bool b => simp [dictsAlong] at h
    | num n => simp [dictsAlong] at h
    | str s => simp [dictsAlong] at h
    | arr xs => simp [dictsAlong] at h

/-- Witness for C7 at a concrete record: the user has key "a" mapped to an
empty dict, so looking up path ["a", "b"] finds the inner key absent and
yields null without error. -/
theorem c7_witness :
    dictsAlong (Json.obj [("a", Json.obj [])]) ["a", "b"] = true ∧
    ((keyAbsent (Json.obj [("a", Json.obj [])]) ["a", "b"] = true →
        read_raw_value (Json.obj [("a", Json.obj [])]) ["a", "b"] = Except.ok Option.none) ∧
     (keyAbsent (Json.obj [("a", Json.obj [])]) ["a", "b"] = false →
        ∃ v, read_raw_value (Json.obj [("a", Json.obj [])]) ["a", "b"] = Except.ok (some v))) :=
  ⟨rfl, c7_absent_key_gives_null (Json.obj [("a", Json.obj [])]) ["a", "b"] rfl⟩

/-- C10: when a value on the path is present but is not a dict (for example an
explicit location_data null), subscripting it raises a TypeError that the
except KeyError of read_raw_value does not catch; and end to end, with such a
user in an otherwise well-formed exchange, the entry point neither yields a
null cell nor a user-facing message: build_dataframe runs outside the try
block, so fetch ends with the TypeError escaping uncaught. -/
theorem c10_non_dict_on_path_raises :
    (∀ (user : Json) (pre : List String) (key : String) (rest : List String) (v : Json),
       descend user pre = Except.ok v → (∀ kvs, v ≠ Json.obj kvs) →
       read_raw_value user (pre ++ key :: rest) = Except.error PyExc.typeError) ∧
    fetch goodSecrets respC10 = (4, FetchResult.exc PyExc.typeError) := by
  constructor
  · intro user pre key rest v hpre hv
    have hstep : descend user (pre ++ key :: rest) = Except.error PyExc.typeError := by
      rw [descend_append, hpre]
      cases v with
      | obj kvs => exact absurd rfl (hv kvs)
      | null => rfl
      | bool b => rfl
      | num n => rfl
      | str s => rfl
      | arr xs => rfl
    unfold read_raw_value
    rw [hstep]
  · rfl

/-- Witness for C10 at a concrete record: descending ["location_data"] finds
an explicit null, and extending the path by "city_name" raises TypeError. -/
theorem c10_witness :
    descend (Json.obj [("location_data", Json.null)]) ["location_data"] = Except.ok Json.null ∧
    read_raw_value (Json.obj [("location_data", Json.null)]) ["location_data", "city_name"]
      = Except.error PyExc.typeError :=
  ⟨rfl,
   c10_non_dict_on_path_raises.1 (Json.obj [("location_data", Json.null)]) ["location_data"]
     "city_name" [] Json.null rfl (fun _ h => Json.noConfusion h)⟩

/-- On a row whose reference objects all carry string ids, find_names returns
exactly the resolvable names. -/
theorem find_names_eq_resolvable (names : List (String × String)) (ds : List Json)
    (h : ∀ d ∈ ds, ∃ s, pyGetItem d "id" = Except.ok (Json.str s)) :
    find_names names ds = Except.ok (resolvable names ds) := by
  induction ds with
  | nil => rfl
  | cons d rest ih =>
    obtain ⟨s, hs⟩ := h d (by simp)
    have ih' := ih (fun d' hd' => h d' (by simp [hd']))
    cases h2 : alookup names s with
    | none => simp [find_names, hs, ih', resolvable, List.filterMap_cons, h2]
    | some n => simp [find_names, hs, ih', resolvable, List.filterMap_cons, h2]

/-- C2: on every column of rows of reference objects (each with a string id)
and every id-to-name mapping, ids_to_names yields per row the names of exactly
the objects whose id the mapping contains, in original order, joined with the
literal separator "; "; ids absent from the mapping are dropped, and a row
with zero resolvable references yields the empty string. -/
theorem c2_ids_to_names (rows : List (List Json)) (names : List (String × String))
    (h : ∀ ds ∈ rows, ∀ d ∈ ds, ∃ s, pyGetItem d "id" = Except.ok (Json.str s)) :
    ids_to_names (rows.map (fun ds => Cell.obj (Json.arr ds))) names =
      Except.ok (rows.map (fun ds => Cell.obj (Json.str (rowNamesSpec names ds)))) ∧
    ∀ ds ∈ rows, resolvable names ds = [] → rowNamesSpec names ds = "" := by
  constructor
  · unfold ids_to_names
    have hmap := mapM_ok
      (fun c =>
        match cellIter c with
        | .error e => Except.error e
        | .ok ds =>
          match find_names names ds with
          | .error e => Except.error e
          | .ok ns => Except.ok (Cell.obj (Json.str (String.intercalate "; " ns))))
      (fun c =>
        match c with
        | Cell.obj (Json.arr ds) => Cell.obj (Json.str (rowNamesSpec names ds))
        | _ => Cell.na)
      (rows.map (fun ds => Cell.obj (Json.arr ds)))
      (by
        intro a ha
        obtain ⟨ds, hds, rfl⟩ := List.mem_map.1 ha
        have hf := find_names_eq_resolvable names ds (h ds hds)
        simp only [cellIter, pyIter, hf]
        rfl)
    rw [hmap, List.map_map]
    rfl
  · intro ds _ hres
    unfold rowNamesSpec
    rw [show resolvable names ds = ds.filterMap (fun d =>
        match pyGetItem d "id" with
        | .ok (Json.str s) => alookup names s
        | _ => Option.none) from rfl] at hres
    rw [hres]
    rfl

/-- Witness for C2 at a concrete column: one row with two reference objects,
of which only the first id is in the mapping; the row joins to the single
resolved name. -/
theorem c2_witness :
    (∀ ds ∈ [[Json.obj [("id", Json.str "a")], Json.obj [("id", Json.str "missing")]]],
       ∀ d ∈ ds, ∃ s, pyGetItem d "id" = Except.ok (Json.str s)) ∧
    ids_to_names
        ([[Json.obj [("id", Json.str "a")], Json.obj [("id", Json.str "missing")]]].map
          (fun ds => Cell.obj (Json.arr ds)))
        [("a", "Alice")] =
      Except.ok
        ([[Json.obj [("id", Json.str "a")], Json.obj [("id", Json.str "missing")]]].map
          (fun ds => Cell.obj (Json.str (rowNamesSpec [("a", "Alice")] ds)))) :=
  have hp : ∀ ds ∈ [[Json.obj [("id", Json.str "a")], Json.obj [("id", Json.str "missing")]]],
      ∀ d ∈ ds, ∃ s, pyGetItem d "id" = Except.ok (Json.str s) := by
    intro ds hds d hd
    simp only [List.mem_singleton] at hds
    subst hds
    rcases List.mem_cons.1 hd with h1 | h2
    · exact ⟨"a", by rw [h1]; rfl⟩
    · rw [List.mem_singleton] at h2
      exact ⟨"missing", by rw [h2]; rfl⟩
  ⟨hp, (c2_ids_to_names _ [("a", "Alice")] hp).1⟩

/-- On a row whose profile objects all carry name and username fields,
find_username returns exactly the username of the first matching profile. -/
theorem find_username_eq_spec (service : String) (ps : List Json)
    (h : ∀ p ∈ ps, (∃ nv, pyGetItem p "name" = Except.ok nv) ∧
                   (∃ uv, pyGetItem p "username" = Except.ok uv)) :
    find_username service ps = Except.ok (usernameSpec service ps) := by
  induction ps with
  | nil => rfl
  | cons p rest ih =>
    obtain ⟨⟨nv, hnv⟩, ⟨uv, huv⟩⟩ := h p (by simp)
    have ih' := ih (fun p' hp' => h p' (by simp [hp']))
    by_cases heq : (nv == Json.str service) = true
    · simp [find_username, usernameSpec, List.find?_cons, hnv, heq, huv]
    · rw [Bool.not_eq_true] at heq
      simp [find_username, usernameSpec, List.find?_cons, hnv, heq, ih']

/-- C4: on every column of rows of social-profile objects (each with name and
username fields) and every service string, the output cell is the username of
the first profile whose name equals the service, and a missing cell (not an
empty string) when no profile matches. -/
theorem c4_social_username (rows : List (List Json)) (service : String)
    (h : ∀ ps ∈ rows, ∀ p ∈ ps, (∃ nv, pyGetItem p "name" = Except.ok nv) ∧
                                (∃ uv, pyGetItem p "username" = Except.ok uv)) :
    extract_social_media_username (rows.map (fun ps => Cell.obj (Json.arr ps))) service =
      Except.ok (rows.map (fun ps =>
        match usernameSpec service ps with
        | some u => Cell.obj u
        | Option.none => Cell.na)) := by
  unfold extract_social_media_username
  have hmap := mapM_ok
    (fun c =>
      match cellIter c with
      | .error e => Except.error e
      | .ok profiles =>
        match find_username service profiles with
        | .error e => Except.error e
        | .ok (some u) => Except.ok (Cell.obj u)
        | .ok Option.none => Except.ok Cell.na)
    (fun c =>
      match c with
      | Cell.obj (Json.arr ps) =>
        (match usernameSpec service ps with
         | some u => Cell.obj u
         | Option.none => Cell.na)
      | _ => Cell.na)
    (rows.map (fun ps => Cell.obj (Json.arr ps)))
    (by
      intro a ha
      obtain ⟨ps, hps, rfl⟩ := List.mem_map.1 ha
      have hf := find_username_eq_spec service ps (h ps hps)
      simp only [cellIter, pyIter, hf]
      cases usernameSpec service ps <;> rfl)
  rw [hmap, List.map_map]
  rfl

/-- Witness for C4 at a concrete column: a single row holding one twitter
profile; asking for the twitter username finds it. -/
theorem c4_witness :
    (∀ ps ∈ [[Json.obj [("name", Json.str "twitter"), ("username", Json.str "bob")]]],
       ∀ p ∈ ps, (∃ nv, pyGetItem p "name" = Except.ok nv) ∧
                 (∃ uv, pyGetItem p "username" = Except.ok uv)) ∧
    extract_social_media_username
        ([[Json.obj [("name", Json.str "twitter"), ("username", Json.str "bob")]]].map
          (fun ps => Cell.obj (Json.arr ps)))
        "twitter" =
      Except.ok
        ([[Json.obj [("name", Json.str "twitter"), ("username", Json.str "bob")]]].map
          (fun ps =>
            match usernameSpec "twitter" ps with
            | some u => Cell.obj u
            | Option.none => Cell.na)) :=
  have hp : ∀ ps ∈ [[Json.obj [("name", Json.str "twitter"), ("username", Json.str "bob")]]],
      ∀ p ∈ ps, (∃ nv, pyGetItem p "name" = Except.ok nv) ∧
                (∃ uv, pyGetItem p "username" = Except.ok uv) := by
    intro ps hps p hp
    simp only [List.mem_singleton] at hps
    subst hps
    rw [List.mem_singleton] at hp
    subst hp
    exact ⟨⟨Json.str "twitter", rfl⟩, ⟨Json.str "bob", rfl⟩⟩
  ⟨hp, c4_social_username _ "twitter" hp⟩

/-- Looking up a key that the replacement map does not touch is unchanged. -/
theorem alookup_map_replace (d : List (String × String)) (k v key : String)
    (h : key ≠ k) :
    alookup (d.map (fun p => if p.1 == k then (k, v) else p)) key = alookup d key := by
  induction d with
  | nil => rfl
  | cons p rest ih =>
    simp only [beq_iff_eq] at ih
    by_cases hp : p.1 = k
    · have hb : (p.1 == k) = true := by simp [hp]
      have h1 : (k == key) = false := by simp [Ne.symm h]
      have h2 : (p.1 == key) = false := by simp [hp, Ne.symm h]
      rw [List.map_cons, if_pos hb]
      simp [alookup, h1, h2, ih]
    · have hb : (p.1 == k) = false := by simp [hp]
      rw [List.map_cons, if_neg (by rw [hb]; exact Bool.false_ne_true)]
      simp [alookup, ih]

/-- When some pair carries the key, the replacement map makes its first
occurrence hold the new value. -/
theorem alookup_map_replace_self (d : List (String × String)) (k v : String)
    (h : d.any (fun p => p.1 == k) = true) :
    alookup (d.map (fun p => if p.1 == k then (k, v) else p)) k = some v := by
  induction d with
  | nil => simp at h
  | cons p rest ih =>
    by_cases hp : p.1 = k
    · have hb : (p.1 == k) = true := by simp [hp]
      rw [List.map_cons, if_pos hb]
      simp [alookup]
    · have hb : (p.1 == k) = false := by simp [hp]
      rw [List.map_cons, if_neg (by rw [hb]; exact Bool.false_ne_true)]
      rw [List.any_cons, hb] at h
      have hrest : rest.any (fun p => p.1 == k) = true := by simpa using h
      have ih2 := ih hrest
      simp only [beq_iff_eq] at ih2
      simp [alookup, hb, ih2]

/-- A key is absent from a lookup exactly when no pair carries it. -/
theorem alookup_none_iff_any_false {β : Type} (d : List (String × β)) (k : String) :
    alookup d k = Option.none ↔ d.any (fun p => p.1 == k) = false := by
  induction d with
  | nil => simp [alookup]
  | cons p rest ih =>
    by_cases hp : p.1 = k
    · have hb : (p.1 == k) = true := by simp [hp]
      simp [alookup, hb]
    · have hb : (p.1 == k) = false := by simp [hp]
      simp [alookup, hb, ih]

/-- Lookup in an appended pair list tries the left part first. -/
theorem alookup_append {β : Type} (l1 l2 : List (String × β)) (key : String) :
    alookup (l1 ++ l2) key =
      match alookup l1 key with
      | some v => some v
      | Option.none => alookup l2 key := by
  induction l1 with
  | nil => rfl
  | cons p rest ih =>
    by_cases h : p.1 = key
    · simp [alookup, h]
    · simp [alookup, h, ih]

/-- Python dict insertion, seen through lookup: the inserted key now maps to
the new value and every other key is untouched. -/
theorem alookup_dictInsert (d : List (String × String)) (k v key : String) :
    alookup (dictInsert d k v) key = if key = k then some v else alookup d key := by
  unfold dictInsert
  by_cases hany : d.any (fun p => p.1 == k) = true
  · rw [if_pos hany]
    by_cases hk : key = k
    · subst hk
      rw [if_pos rfl]
      exact alookup_map_replace_self d key v hany
    · rw [if_neg hk]
      exact alookup_map_replace d k v key hk
  · rw [if_neg hany]
    rw [alookup_append]
    have hanyf : d.any (fun p => p.1 == k) = false := by
      cases hc : d.any (fun p => p.1 == k) with
      | true => exact absurd hc hany
      | false => rfl
    by_cases hk : key = k
    · subst hk
      rw [(alookup_none_iff_any_false d key).2 hanyf]
      simp [alookup]
    · have h2 : alookup [(k, v)] key = (Option.none : Option String) := by
        simp [alookup, Ne.symm hk]
      rw [h2, if_neg hk]
      cases alookup d key <;> rfl

/-- Folding dict insertions over a pair list realises last-wins lookup on top
of the initial dict. -/
theorem alookup_foldl_dictInsert (pairs : List (String × String))
    (acc : List (String × String)) (key : String) :
    alookup (pairs.foldl (fun a p => dictInsert a p.1 p.2) acc) key =
      match lastNameFor pairs key with
      | some n => some n
      | Option.none => alookup acc key := by
  induction pairs generalizing acc with
  | nil => rfl
  | cons p rest ih =>
    rw [List.foldl_cons, ih (dictInsert acc p.1 p.2)]
    rw [lastNameFor]
    cases lastNameFor rest key with
    | some n => rfl
    | none =>
      rw [alookup_dictInsert]
      by_cases hk : key = p.1
      · simp [hk]
      · simp [hk, Ne.symm hk]

/-- Presence in last-wins lookup coincides with presence of the key among the
pairs. -/
theorem lastNameFor_isSome (pairs : List (String × String)) (key : String) :
    (lastNameFor pairs key).isSome = pairs.any (fun p => p.1 == key) := by
  induction pairs with
  | nil => rfl
  | cons p rest ih =>
    rw [lastNameFor, List.any_cons]
    cases hr : lastNameFor rest key with
    | some n =>
      rw [hr] at ih
      simp [← ih]
    | none =>
      rw [hr] at ih
      by_cases hp : p.1 = key <;> simp [hp, ← ih]

/-- A record without a name field contributes no named pair. -/
theorem namedPairs_cons_noname (kvs : List (String × Json)) (rest : List Json)
    (hn : alookup kvs "name" = Option.none) :
    namedPairs (Json.obj kvs :: rest) = namedPairs rest := by
  unfold namedPairs
  rw [List.filterMap_cons]
  simp [hn]

/-- A record with string name and id contributes its pair at the front. -/
theorem namedPairs_cons_named (kvs : List (String × Json)) (rest : List Json)
    (i n : String) (hn : alookup kvs "name" = some (Json.str n))
    (hid : alookup kvs "id" = some (Json.str i)) :
    namedPairs (Json.obj kvs :: rest) = (i, n) :: namedPairs rest := by
  unfold namedPairs
  rw [List.filterMap_cons]
  simp [hn, hid]

/-- The loop inside companiesToMap, generalized over the starting dict: under
well-formed records it performs exactly the dict insertions of the named
pairs. -/
theorem companiesToMapFrom_wf (records : List Json) (acc : List (String × String))
    (h : ∀ r ∈ records, wellFormedCompany r = true) :
    companiesToMapFrom acc records
      = Except.ok ((namedPairs records).foldl (fun a p => dictInsert a p.1 p.2) acc) := by
  induction records generalizing acc with
  | nil => rfl
  | cons r rest ih =>
    have hr := h r (by simp)
    have ih' := fun acc2 => ih acc2 (fun r' hr' => h r' (by simp [hr']))
    cases r with
    | obj kvs =>
      cases hn : alookup kvs "name" with
      | none =>
        have hpc : pyContains (Json.obj kvs) "name" = Except.ok false := by
          show Except.ok (kvs.any (fun kv => kv.1 == "name")) = Except.ok false
          rw [(alookup_none_iff_any_false kvs "name").1 hn]
        rw [companiesToMapFrom, hpc, namedPairs_cons_noname kvs rest hn]
        exact ih' acc
      | some namev =>
        have hany : kvs.any (fun p => p.1 == "name") = true := by
          cases hc : kvs.any (fun p => p.1 == "name") with
          | true => rfl
          | false =>
            rw [(alookup_none_iff_any_false kvs "name").2 hc] at hn
            exact Option.noConfusion hn
        have hpc : pyContains (Json.obj kvs) "name" = Except.ok true := by
          show Except.ok (kvs.any (fun kv => kv.1 == "name")) = Except.ok true
          rw [hany]
        have hr2 : (match alookup kvs "name" with
                    | Option.none => true
                    | some namev =>
                      match alookup kvs "id", namev with
                      | some (Json.str _), Json.str _ => true
                      | _, _ => false) = true := hr
        rw [hn] at hr2
        cases hid : alookup kvs "id" with
        | none => rw [hid] at hr2; simp at hr2
        | some idv =>
          rw [hid] at hr2
          cases idv with
          | str i =>
            cases namev with
            | str n =>
              have hgid : pyGetItem (Json.obj kvs) "id" = Except.ok (Json.str i) := by
                show (match alookup kvs "id" with
                      | some v => Except.ok v
                      | Option.none => Except.error (PyExc.keyError "id"))
                    = Except.ok (Json.str i)
                rw [hid]
              have hgname : pyGetItem (Json.obj kvs) "name" = Except.ok (Json.str n) := by
                show (match alookup kvs "name" with
                      | some v => Except.ok v
                      | Option.none => Except.error (PyExc.keyError "name"))
                    = Except.ok (Json.str n)
                rw [hn]
              have hpair : refPairOf (Json.obj kvs) = Except.ok (i, n) := by
                unfold refPairOf
                rw [hgid, hgname]
              rw [companiesToMapFrom, hpc, hpair,
                namedPairs_cons_named kvs rest i n hn hid, List.foldl_cons]
              exact ih' (dictInsert acc i n)
            | null => simp at hr2
            | bool b => simp at hr2
            | num m => simp at hr2
            | arr xs => simp at hr2
            | obj kvs2 => simp at hr2
          | null => simp at hr2
          | bool b => simp at hr2
          | num m => simp at hr2
          | arr xs => simp at hr2
          | obj kvs2 => simp at hr2
    | null => simp [wellFormedCompany] at hr
    | bool b => simp [wellFormedCompany] at hr
    | num n => simp [wellFormedCompany] at hr
    | str s => simp [wellFormedCompany] at hr
    | arr xs => simp [wellFormedCompany] at hr

/-- C9: over every fetched company list (of records staying in the string
id-and-name domain), the company mapping is the dict built from exactly the
records that have a name field: a record lacking name contributes no entry,
lookup of an id succeeds exactly when some name-bearing record carries that
id, and it returns the last such name, as Python dict insertion leaves it. -/
theorem c9_companies_mapping (records : List Json)
    (h : ∀ r ∈ records, wellFormedCompany r = true) :
    companiesToMap records
        = Except.ok ((namedPairs records).foldl (fun a p => dictInsert a p.1 p.2) []) ∧
    (∀ key, alookup ((namedPairs records).foldl (fun a p => dictInsert a p.1 p.2) []) key
        = lastNameFor (namedPairs records) key) ∧
    (∀ key, (alookup ((namedPairs records).foldl (fun a p => dictInsert a p.1 p.2) []) key).isSome
        = (namedPairs records).any (fun p => p.1 == key)) := by
  have hmain : companiesToMap records
      = Except.ok ((namedPairs records).foldl (fun a p => dictInsert a p.1 p.2) []) :=
    companiesToMapFrom_wf records [] h
  have hlook : ∀ key,
      alookup ((namedPairs records).foldl (fun a p => dictInsert a p.1 p.2) []) key
        = lastNameFor (namedPairs records) key := by
    intro key
    rw [alookup_foldl_dictInsert]
    cases lastNameFor (namedPairs records) key <;> rfl
  refine ⟨hmain, hlook, fun key => ?_⟩
  rw [hlook key, lastNameFor_isSome]

/-- Witness for C9 at a concrete fetch: two company records, the second
lacking a name; only the first contributes an entry. -/
theorem c9_witness :
    (∀ r ∈ [Json.obj [("id", Json.str "a"), ("name", Json.str "A")],
            Json.obj [("id", Json.str "b")]], wellFormedCompany r = true) ∧
    (companiesToMap [Json.obj [("id", Json.str "a"), ("name", Json.str "A")],
                     Json.obj [("id", Json.str "b")]]
        = Except.ok ((namedPairs [Json.obj [("id", Json.str "a"), ("name", Json.str "A")],
                                  Json.obj [("id", Json.str "b")]]).foldl
            (fun a p => dictInsert a p.1 p.2) []) ∧
     (∀ key, alookup ((namedPairs [Json.obj [("id", Json.str "a"), ("name", Json.str "A")],
                                   Json.obj [("id", Json.str "b")]]).foldl
            (fun a p => dictInsert a p.1 p.2) []) key
        = lastNameFor (namedPairs [Json.obj [("id", Json.str "a"), ("name", Json.str "A")],
                                   Json.obj [("id", Json.str "b")]]) key) ∧
     (∀ key, (alookup ((namedPairs [Json.obj [("id", Json.str "a"), ("name", Json.str "A")],
                                    Json.obj [("id", Json.str "b")]]).foldl
            (fun a p => dictInsert a p.1 p.2) []) key).isSome
        = (namedPairs [Json.obj [("id", Json.str "a"), ("name", Json.str "A")],
                       Json.obj [("id", Json.str "b")]]).any (fun p => p.1 == key))) :=
  have hp : ∀ r ∈ [Json.obj [("id", Json.str "a"), ("name", Json.str "A")],
      Json.obj [("id", Json.str "b")]], wellFormedCompany r = true := by
    intro r hr
    rcases List.mem_cons.1 hr with h1 | h2
    · rw [h1]; rfl
    · rw [List.mem_singleton] at h2; rw [h2]; rfl
  ⟨hp, c9_companies_mapping _ hp⟩

/-- C8 counterexample: a secrets record whose stored secret is a truthy dict
without an access_token field does not yield a usable bearer token, yet the
entry point does not return the please-authenticate result: line 200 raises an
uncaught KeyError (before any request is made). -/
theorem c8_counterexample :
    fetch [("access_token", Json.obj [("secret", Json.obj [("name", Json.str "x")])])]
        (fun _ => Resp.ok Json.null)
      = (0, FetchResult.exc (PyExc.keyError "access_token")) ∧
    fetch [("access_token", Json.obj [("secret", Json.obj [("name", Json.str "x")])])]
        (fun _ => Resp.ok Json.null)
      ≠ (0, FetchResult.message "badParam.access_token.empty" "Please sign in to Intercom") := by
  have key : fetch [("access_token", Json.obj [("secret", Json.obj [("name", Json.str "x")])])]
      (fun _ => Resp.ok Json.null)
      = (0, FetchResult.exc (PyExc.keyError "access_token")) := rfl
  refine ⟨key, fun h => ?_⟩
  rw [key] at h
  exact FetchResult.noConfusion (congrArg Prod.snd h)

/-- C8 amended: for every secrets record whose extracted secret value - the
result of (secrets.get("access_token") or an empty dict).get("secret") - is
missing or otherwise falsy, the entry point returns the please-authenticate
message and makes no network request. (A truthy malformed secret instead
raises before any request, as the counterexample shows.) -/
theorem c8_no_token_message (secrets : List (String × Json)) (responses : Nat → Resp)
    (v : Json) (hv : secret_value secrets = Except.ok v) (hf : truthy v = false) :
    fetch secrets responses
      = (0, FetchResult.message "badParam.access_token.empty" "Please sign in to Intercom") := by
  simp [fetch, hv, hf]

/-- Witness for C8 at the concrete no-credential record: an empty secrets
dict extracts a null secret, and fetch returns the authentication message
having made zero requests. -/
theorem c8_witness :
    secret_value [] = Except.ok Json.null ∧ truthy Json.null = false ∧
    fetch [] (fun _ => Resp.ok Json.null)
      = (0, FetchResult.message "badParam.access_token.empty" "Please sign in to Intercom") :=
  ⟨rfl, rfl, c8_no_token_message [] (fun _ => Resp.ok Json.null) Json.null rfl rfl⟩

/-- The page cap written as a successor, to unfold one loop iteration. -/
theorem MaxNPages_succ : MaxNPages = 49 + 1 := rfl

/-- One loop step on each classified page outcome. -/
theorem fp_go_step (responses : Nat → Resp) (key : String) (fuel i : Nat)
    (acc : List Json) :
    fetch_paginated_go responses key (fuel + 1) i acc
      = (match pageStep (responses i) key with
         | .fail e => (i + 1, Except.error e)
         | .last items => (i + 1, Except.ok (acc ++ items))
         | .more items => fetch_paginated_go responses key fuel (i + 1) (acc ++ items)) := rfl

/-- An object body reduces the page step to its item and next-link reads. -/
theorem pageStep_obj (kvs : List (String × Json)) (key : String) :
    pageStep (Resp.ok (Json.obj kvs)) key
      = (match pageItems kvs key with
         | .error e => PageStep.fail e
         | .ok items =>
           match pageNext kvs with
           | .error e => PageStep.fail e
           | .ok Option.none => PageStep.last items
           | .ok (some nextv) =>
             if truthy nextv then PageStep.more items else PageStep.last items) := rfl

/-- A page whose body is not a JSON object classifies as the not-an-object
RuntimeError. -/
theorem pageStep_not_object (body : Json) (key : String)
    (hbody : ∀ kvs, body ≠ Json.obj kvs) :
    pageStep (Resp.ok body) key = PageStep.fail (PyExc.runtimeError notObjectMsg) := by
  cases body with
  | obj kvs => exact absurd rfl (hbody kvs)
  | null => rfl
  | bool b => rfl
  | num n => rfl
  | str s => rfl
  | arr xs => rfl

/-- A page whose object body lacks the result key classifies as the
missing-key RuntimeError. -/
theorem pageStep_missing_key (kvs : List (String × Json)) (key : String)
    (hkey : alookup kvs key = Option.none) :
    pageStep (Resp.ok (Json.obj kvs)) key
      = PageStep.fail (PyExc.runtimeError (missingKeyMsg key)) := by
  rw [pageStep_obj]
  unfold pageItems
  rw [hkey]

/-- A page whose body is not a JSON object stops the loop with the
not-an-object RuntimeError. -/
theorem fp_go_not_object (responses : Nat → Resp) (key : String) (fuel i : Nat)
    (acc : List Json) (body : Json) (hresp : responses i = Resp.ok body)
    (hbody : ∀ kvs, body ≠ Json.obj kvs) :
    fetch_paginated_go responses key (fuel + 1) i acc
      = (i + 1, Except.error (PyExc.runtimeError notObjectMsg)) := by
  rw [fp_go_step, hresp, pageStep_not_object body key hbody]

/-- A page whose object body lacks the result key stops the loop with the
missing-key RuntimeError. -/
theorem fp_go_missing_key (responses : Nat → Resp) (key : String) (fuel i : Nat)
    (acc : List Json) (kvs : List (String × Json))
    (hresp : responses i = Resp.ok (Json.obj kvs)) (hkey : alookup kvs key = Option.none) :
    fetch_paginated_go responses key (fuel + 1) i acc
      = (i + 1, Except.error (PyExc.runtimeError (missingKeyMsg key))) := by
  rw [fp_go_step, hresp, pageStep_missing_key kvs key hkey]

/-- pyIter fails only with TypeError. -/
theorem pyIter_error (v : Json) (e : PyExc) (h : pyIter v = Except.error e) :
    e = PyExc.typeError := by
  cases v with
  | null => simpa [pyIter] using h.symm
  | bool b => simpa [pyIter] using h.symm
  | num n => simpa [pyIter] using h.symm
  | str s => simp [pyIter] at h
  | arr xs => simp [pyIter] at h
  | obj kvs => simp [pyIter] at h

/-- pyGetItem fails only with KeyError on its key or TypeError. -/
theorem pyGetItem_error (j : Json) (key : String) (e : PyExc)
    (h : pyGetItem j key = Except.error e) :
    e = PyExc.keyError key ∨ e = PyExc.typeError := by
  cases j with
  | obj kvs =>
    left
    have h2 : (match alookup kvs key with
               | some v => Except.ok v
               | Option.none => Except.error (PyExc.keyError key)) = Except.error e := h
    cases hl : alookup kvs key with
    | none =>
      rw [hl] at h2
      simpa using h2.symm
    | some v =>
      rw [hl] at h2
      exact absurd h2 (by simp)
  | null => right; simpa [pyGetItem] using h.symm
  | bool b => right; simpa [pyGetItem] using h.symm
  | num n => right; simpa [pyGetItem] using h.symm
  | str s => right; simpa [pyGetItem] using h.symm
  | arr xs => right; simpa [pyGetItem] using h.symm

/-- The item read of a page fails only with the missing-key RuntimeError or a
TypeError from iterating a non-iterable stored value. -/
theorem pageItems_error (kvs : List (String × Json)) (key : String) (e : PyExc)
    (h : pageItems kvs key = Except.error e) :
    e = PyExc.runtimeError (missingKeyMsg key) ∨ e = PyExc.typeError := by
  unfold pageItems at h
  cases hl : alookup kvs key with
  | none =>
    rw [hl] at h
    left
    simpa using h.symm
  | some v =>
    rw [hl] at h
    right
    exact pyIter_error v e h

/-- The next-link read of a page fails only with KeyError "next" or TypeError. -/
theorem pageNext_error (kvs : List (String × Json)) (e : PyExc)
    (h : pageNext kvs = Except.error e) :
    e = PyExc.keyError "next" ∨ e = PyExc.typeError := by
  unfold pageNext at h
  cases hp : alookup kvs "pages" with
  | none =>
    rw [hp] at h
    exact absurd h (by simp)
  | some pagesv =>
    rw [hp] at h
    have h2 : (match pyGetItem pagesv "next" with
               | Except.error e2 => Except.error e2
               | Except.ok nextv => Except.ok (some nextv)) = Except.error e := h
    cases hx : pyGetItem pagesv "next" with
    | error e2 =>
      rw [hx] at h2
      simp only [Except.error.injEq] at h2
      rw [← h2]
      exact pyGetItem_error pagesv "next" e2 hx
    | ok nextv =>
      rw [hx] at h2
      exact absurd h2 (by simp)

/-- A page step fails with a RuntimeError only at the two shape checks. -/
theorem pageStep_runtime_sound (r : Resp) (key msg : String)
    (h : pageStep r key = PageStep.fail (PyExc.runtimeError msg)) :
    msg = notObjectMsg ∨ msg = missingKeyMsg key := by
  cases r with
  | requestError m => simp [pageStep] at h
  | statusError m => simp [pageStep] at h
  | ok body =>
    cases body with
    | obj kvs =>
      rw [pageStep_obj] at h
      cases hit : pageItems kvs key with
      | error e =>
        rw [hit] at h
        have he : e = PyExc.runtimeError msg := by simpa using h
        rw [he] at hit
        rcases pageItems_error kvs key _ hit with h1 | h1
        · right
          simpa using h1
        · exact absurd h1 (by simp)
      | ok items =>
        rw [hit] at h
        cases hn : pageNext kvs with
        | error e =>
          rw [hn] at h
          have he : e = PyExc.runtimeError msg := by simpa using h
          rw [he] at hn
          rcases pageNext_error kvs _ hn with h1 | h1
          · exact absurd h1 (by simp)
          · exact absurd h1 (by simp)
        | ok onext =>
          rw [hn] at h
          cases onext with
          | none => simp at h
          | some nextv =>
            have h2 : (if truthy nextv = true then PageStep.more items
                       else PageStep.last items) = PageStep.fail (PyExc.runtimeError msg) := h
            by_cases ht : truthy nextv = true
            · rw [if_pos ht] at h2
              simp at h2
            · rw [if_neg ht] at h2
              simp at h2
    | null => left; simpa [pageStep] using h.symm
    | bool b => left; simpa [pageStep] using h.symm
    | num n => left; simpa [pageStep] using h.symm
    | str s => left; simpa [pageStep] using h.symm
    | arr xs => left; simpa [pageStep] using h.symm

/-- The loop raises a RuntimeError only at its two shape checks, so the
message is one of the two shape messages. -/
theorem fp_go_runtime_sound (responses : Nat → Resp) (key : String) :
    ∀ (fuel i : Nat) (acc : List Json) (n : Nat) (msg : String),
      fetch_paginated_go responses key fuel i acc = (n, Except.error (PyExc.runtimeError msg)) →
      msg = notObjectMsg ∨ msg = missingKeyMsg key := by
  intro fuel
  induction fuel with
  | zero =>
    intro i acc n msg h
    rw [fetch_paginated_go] at h
    exact absurd (congrArg Prod.snd h) (by simp)
  | succ f ih =>
    intro i acc n msg h
    rw [fp_go_step] at h
    cases hs : pageStep (responses i) key with
    | fail e =>
      rw [hs] at h
      have he : e = PyExc.runtimeError msg := by
        have h3 := congrArg Prod.snd h
        simpa using h3
      rw [he] at hs
      exact pageStep_runtime_sound _ _ _ hs
    | last items =>
      rw [hs] at h
      exact absurd (congrArg Prod.snd h) (by simp)
    | more items =>
      rw [hs] at h
      exact ih (i + 1) (acc ++ items) n msg h

/-- With a usable token configured, fetch reduces to the four fetches and the
error mapping of its try block. -/
theorem fetch_goodSecrets_eq (responses : Nat → Resp) :
    fetch goodSecrets responses
      = (match runFetches responses with
         | (n, .ok (users, companies, segments, tags)) =>
           (match build_dataframe users companies segments tags with
            | .ok t => (n, FetchResult.table t)
            | .error e => (n, FetchResult.exc e))
         | (n, .error (.httpRequestError m)) =>
           (n, FetchResult.message "error.httpError.general" ("Error querying Intercom: " ++ m))
         | (n, .error (.runtimeError m)) =>
           (n, FetchResult.message "error.unexpectedIntercomJson.general"
             ("Error handling Intercom response: " ++ m))
         | (n, .error e) => (n, FetchResult.exc e)) := rfl

/-- C5: fetch_paginated fails with a RuntimeError (the shape error) exactly at
the two shape checks: whenever it does, the message is the not-an-object text
or the missing-key text; conversely a first response that is not an object, or
an object without the result key, produces exactly that RuntimeError after one
request; the missing-key message contains the key name; and through the entry
point the missing-key failure surfaces wrapped in the error-handling-response
message. -/
theorem c5_shape_errors (responses : Nat → Resp) :
    (∀ (key : String) (start n : Nat) (msg : String),
       fetch_paginated responses key start = (n, Except.error (PyExc.runtimeError msg)) →
       msg = notObjectMsg ∨ msg = missingKeyMsg key) ∧
    (∀ (key : String) (start : Nat) (body : Json),
       responses start = Resp.ok body → (∀ kvs, body ≠ Json.obj kvs) →
       fetch_paginated responses key start
         = (start + 1, Except.error (PyExc.runtimeError notObjectMsg))) ∧
    (∀ (key : String) (start : Nat) (kvs : List (String × Json)),
       responses start = Resp.ok (Json.obj kvs) → alookup kvs key = Option.none →
       fetch_paginated responses key start
         = (start + 1, Except.error (PyExc.runtimeError (missingKeyMsg key)))) ∧
    (∀ key : String, ∃ pre post, missingKeyMsg key = pre ++ key ++ post) ∧
    (∀ kvs : List (String × Json),
       responses 0 = Resp.ok (Json.obj kvs) → alookup kvs "users" = Option.none →
       fetch goodSecrets responses
         = (1, FetchResult.message "error.unexpectedIntercomJson.general"
             ("Error handling Intercom response: " ++ missingKeyMsg "users"))) := by
  refine ⟨?_, ?_, ?_, ?_, ?_⟩
  · intro key start n msg h
    rw [fetch_paginated] at h
    exact fp_go_runtime_sound responses key MaxNPages start [] n msg h
  · intro key start body hresp hbody
    rw [fetch_paginated, MaxNPages_succ]
    exact fp_go_not_object responses key 49 start [] body hresp hbody
  · intro key start kvs hresp hkey
    rw [fetch_paginated, MaxNPages_succ]
    exact fp_go_missing_key responses key 49 start [] kvs hresp hkey
  · intro key
    exact ⟨"Intercom did not return \"", "\" data", rfl⟩
  · intro kvs hresp hkey
    have hfp : fetch_paginated responses "users" 0
        = (1, Except.error (PyExc.runtimeError (missingKeyMsg "users"))) := by
      rw [fetch_paginated, MaxNPages_succ]
      exact fp_go_missing_key responses "users" 49 0 [] kvs hresp hkey
    rw [fetch_goodSecrets_eq]
    unfold runFetches
    rw [hfp]

/-- Witness for C5 at a concrete exchange: the first response is an object
without the "users" key, and the entry point surfaces the wrapped message. -/
theorem c5_witness :
    (fun _ : Nat => Resp.ok (Json.obj [("foo", Json.arr [])])) 0
        = Resp.ok (Json.obj [("foo", Json.arr [])]) ∧
    alookup [("foo", Json.arr [])] "users" = Option.none ∧
    fetch goodSecrets (fun _ => Resp.ok (Json.obj [("foo", Json.arr [])]))
      = (1, FetchResult.message "error.unexpectedIntercomJson.general"
          ("Error handling Intercom response: " ++ missingKeyMsg "users")) :=
  ⟨rfl, rfl,
   (c5_shape_errors (fun _ => Resp.ok (Json.obj [("foo", Json.arr [])]))).2.2.2.2
     [("foo", Json.arr [])] rfl rfl⟩

/-- C6 counterexample: with a usable token, a first page request answered with
a non-2xx status makes raise_for_status raise httpx.HTTPStatusError, which the
except httpx.RequestError handler does not catch: the entry point ends with
the exception escaping, not with the error-querying-remote-service message. -/
theorem c6_counterexample :
    fetch goodSecrets (fun _ => Resp.statusError "500")
        = (1, FetchResult.exc (PyExc.httpStatusError "500")) ∧
    fetch goodSecrets (fun _ => Resp.statusError "500")
        ≠ (1, FetchResult.message "error.httpError.general" "Error querying Intercom: 500") := by
  have key : fetch goodSecrets (fun _ => Resp.statusError "500")
      = (1, FetchResult.exc (PyExc.httpStatusError "500")) := rfl
  refine ⟨key, fun h => ?_⟩
  rw [key] at h
  exact FetchResult.noConfusion (congrArg Prod.snd h)

/-- C6 amended: a connection error or timeout (httpx.RequestError) on any page
request of any of the four fetches stops that request immediately with the
transport exception, and whenever the four fetches end with a RequestError the
entry point returns the localized error-querying-remote-service message with
the cause text; a non-2xx status instead raises httpx.HTTPStatusError at the
failing request, which the handlers do not catch, so the entry point ends with
that exception escaping uncaught. -/
theorem c6_transport_errors (responses : Nat → Resp) :
    (∀ (key : String) (fuel i : Nat) (acc : List Json) (m : String),
       responses i = Resp.requestError m →
       fetch_paginated_go responses key (fuel + 1) i acc
         = (i + 1, Except.error (PyExc.httpRequestError m))) ∧
    (∀ (n : Nat) (m : String),
       runFetches responses = (n, Except.error (PyExc.httpRequestError m)) →
       fetch goodSecrets responses
         = (n, FetchResult.message "error.httpError.general" ("Error querying Intercom: " ++ m))) ∧
    (∀ (key : String) (fuel i : Nat) (acc : List Json) (m : String),
       responses i = Resp.statusError m →
       fetch_paginated_go responses key (fuel + 1) i acc
         = (i + 1, Except.error (PyExc.httpStatusError m))) ∧
    (∀ (n : Nat) (m : String),
       runFetches responses = (n, Except.error (PyExc.httpStatusError m)) →
       fetch goodSecrets responses = (n, FetchResult.exc (PyExc.httpStatusError m))) := by
  refine ⟨?_, ?_, ?_, ?_⟩
  · intro key fuel i acc m hresp
    rw [fp_go_step, hresp]
    rfl
  · intro n m hrun
    rw [fetch_goodSecrets_eq, hrun]
  · intro key fuel i acc m hresp
    rw [fp_go_step, hresp]
    rfl
  · intro n m hrun
    rw [fetch_goodSecrets_eq, hrun]

/-- Witness for C6 at a concrete exchange: a connection failure on the very
first request surfaces as the error-querying message with the cause text. -/
theorem c6_witness :
    (fun _ : Nat => Resp.requestError "boom") 3 = Resp.requestError "boom" ∧
    runFetches (fun _ => Resp.requestError "boom")
        = (1, Except.error (PyExc.httpRequestError "boom")) ∧
    fetch goodSecrets (fun _ => Resp.requestError "boom")
        = (1, FetchResult.message "error.httpError.general"
            ("Error querying Intercom: " ++ "boom")) :=
  ⟨rfl, rfl, (c6_transport_errors (fun _ => Resp.requestError "boom")).2.1 1 "boom" rfl⟩

/-- The loop never uses more pages than it has fuel. -/
theorem pagesUsed_le (nx : Nat → Bool) : ∀ (fuel i : Nat), pagesUsed nx fuel i ≤ fuel := by
  intro fuel
  induction fuel with
  | zero =>
    intro i
    rw [pagesUsed]
  | succ f ih =>
    intro i
    rw [pagesUsed]
    by_cases h : nx i = true
    · rw [if_pos h]
      have := ih (i + 1)
      omega
    · rw [if_neg h]
      omega

/-- A page without a next link stops the count right after it. -/
theorem pagesUsed_stop (nx : Nat → Bool) :
    ∀ (fuel i j : Nat), nx (i + j) = false → pagesUsed nx fuel i ≤ j + 1 := by
  intro fuel
  induction fuel with
  | zero =>
    intro i j _
    rw [pagesUsed]
    omega
  | succ f ih =>
    intro i j h
    rw [pagesUsed]
    by_cases hni : nx i = true
    · rw [if_pos hni]
      cases j with
      | zero =>
        rw [Nat.add_zero] at h
        rw [h] at hni
        exact Bool.noConfusion hni
      | succ j2 =>
        have h2 : nx (i + 1 + j2) = false := by
          rw [show i + 1 + j2 = i + (j2 + 1) by omega]
          exact h
        have := ih (i + 1) j2 h2
        omega
    · rw [if_neg hni]
      omega

/-- When every page in reach has a next link, the count exhausts the fuel. -/
theorem pagesUsed_full (nx : Nat → Bool) :
    ∀ (fuel i : Nat), (∀ j, j < fuel → nx (i + j) = true) → pagesUsed nx fuel i = fuel := by
  intro fuel
  induction fuel with
  | zero =>
    intro i _
    rw [pagesUsed]
  | succ f ih =>
    intro i h
    rw [pagesUsed]
    rw [if_pos (by simpa using h 0 (by omega))]
    rw [ih (i + 1) (fun j hj => by
      rw [show i + 1 + j = i + (j + 1) by omega]
      exact h (j + 1) (by omega))]
    omega

/-- A well-formed page without a pagination block classifies as a last page. -/
theorem pageStep_mkPage_none (key : String) (items : List Json) (hk : key ≠ "pages") :
    pageStep (Resp.ok (mkPage key items Option.none)) key = PageStep.last items := by
  rw [mkPage, pageStep_obj]
  have h1 : pageItems [(key, Json.arr items)] key = Except.ok items := by
    unfold pageItems
    have hx : alookup [(key, Json.arr items)] key = some (Json.arr items) := by
      simp [alookup]
    rw [hx]
    rfl
  have h2 : pageNext [(key, Json.arr items)] = Except.ok Option.none := by
    unfold pageNext
    have hx : alookup [(key, Json.arr items)] "pages" = (Option.none : Option Json) := by
      simp [alookup, hk]
    rw [hx]
  rw [h1, h2]

/-- A well-formed page with a truthy next link classifies as a page with
more to follow. -/
theorem pageStep_mkPage_some_true (key : String) (items : List Json) (v : Json)
    (hk : key ≠ "pages") (ht : truthy v = true) :
    pageStep (Resp.ok (mkPage key items (some v))) key = PageStep.more items := by
  rw [mkPage, pageStep_obj]
  have h1 : pageItems [(key, Json.arr items), ("pages", Json.obj [("next", v)])] key
      = Except.ok items := by
    unfold pageItems
    have hx : alookup [(key, Json.arr items), ("pages", Json.obj [("next", v)])] key
        = some (Json.arr items) := by simp [alookup]
    rw [hx]
    rfl
  have h2 : pageNext [(key, Json.arr items), ("pages", Json.obj [("next", v)])]
      = Except.ok (some v) := by
    unfold pageNext
    have hx : alookup [(key, Json.arr items), ("pages", Json.obj [("next", v)])] "pages"
        = some (Json.obj [("next", v)]) := by simp [alookup, hk]
    rw [hx]
    rfl
  rw [h1, h2]
  show (if truthy v = true then PageStep.more items else PageStep.last items)
      = PageStep.more items
  rw [if_pos ht]

/-- A well-formed page with a falsy next link classifies as a last page. -/
theorem pageStep_mkPage_some_false (key : String) (items : List Json) (v : Json)
    (hk : key ≠ "pages") (ht : truthy v = false) :
    pageStep (Resp.ok (mkPage key items (some v))) key = PageStep.last items := by
  rw [mkPage, pageStep_obj]
  have h1 : pageItems [(key, Json.arr items), ("pages", Json.obj [("next", v)])] key
      = Except.ok items := by
    unfold pageItems
    have hx : alookup [(key, Json.arr items), ("pages", Json.obj [("next", v)])] key
        = some (Json.arr items) := by simp [alookup]
    rw [hx]
    rfl
  have h2 : pageNext [(key, Json.arr items), ("pages", Json.obj [("next", v)])]
      = Except.ok (some v) := by
    unfold pageNext
    have hx : alookup [(key, Json.arr items), ("pages", Json.obj [("next", v)])] "pages"
        = some (Json.obj [("next", v)]) := by simp [alookup, hk]
    rw [hx]
    rfl
  rw [h1, h2]
  show (if truthy v = true then PageStep.more items else PageStep.last items)
      = PageStep.last items
  rw [if_neg (by rw [ht]; exact Bool.false_ne_true)]

/-- Over a server of well-formed pages, the loop returns the concatenation of
the items of the pages it visits and issues exactly pagesUsed requests. -/
theorem fp_go_pages (responses : Nat → Resp) (key : String) (items : Nat → List Json)
    (next : Nat → Option Json) (hk : key ≠ "pages")
    (H : ∀ j, responses j = Resp.ok (mkPage key (items j) (next j))) :
    ∀ (fuel i : Nat) (acc : List Json),
      fetch_paginated_go responses key fuel i acc
        = (i + pagesUsed (hasNext next) fuel i,
           Except.ok
             (acc ++ ((List.range' i (pagesUsed (hasNext next) fuel i)).map items).flatten)) := by
  intro fuel
  induction fuel with
  | zero =>
    intro i acc
    rw [fetch_paginated_go, pagesUsed]
    simp
  | succ f ih =>
    intro i acc
    rw [fp_go_step, H i]
    cases hn : next i with
    | none =>
      rw [pageStep_mkPage_none key (items i) hk]
      have hnx : hasNext next i = false := by simp [hasNext, hn]
      have hpu : pagesUsed (hasNext next) (f + 1) i = 1 := by
        rw [pagesUsed, hnx]
        simp
      rw [hpu]
      show (i + 1, Except.ok (acc ++ items i)) = _
      rw [show (1 : Nat) = 0 + 1 by omega, List.range'_succ]
      simp
    | some v =>
      have hnx : hasNext next i = truthy v := by simp [hasNext, hn]
      by_cases ht : truthy v = true
      · rw [pageStep_mkPage_some_true key (items i) v hk ht]
        have hpu : pagesUsed (hasNext next) (f + 1) i
            = 1 + pagesUsed (hasNext next) f (i + 1) := by
          rw [pagesUsed, hnx, if_pos ht]
        rw [hpu]
        show fetch_paginated_go responses key f (i + 1) (acc ++ items i) = _
        rw [ih (i + 1) (acc ++ items i)]
        have hlist : acc ++ ((List.range' i (1 + pagesUsed (hasNext next) f (i + 1))).map
              items).flatten
            = acc ++ items i ++ ((List.range' (i + 1) (pagesUsed (hasNext next) f
              (i + 1))).map items).flatten := by
          rw [Nat.add_comm 1 (pagesUsed (hasNext next) f (i + 1)), List.range'_succ,
            List.map_cons, List.flatten_cons, ← List.append_assoc]
        rw [hlist]
        rw [show i + (1 + pagesUsed (hasNext next) f (i + 1))
            = i + 1 + pagesUsed (hasNext next) f (i + 1) by omega]
      · have htf : truthy v = false := by
          cases hcase : truthy v with
          | true => exact absurd hcase ht
          | false => rfl
        rw [pageStep_mkPage_some_false key (items i) v hk htf]
        have hnx2 : hasNext next i = false := hnx.trans htf
        have hpu : pagesUsed (hasNext next) (f + 1) i = 1 := by
          rw [pagesUsed, hnx2]
          simp
        rw [hpu]
        show (i + 1, Except.ok (acc ++ items i)) = _
        rw [show (1 : Nat) = 0 + 1 by omega, List.range'_succ]
        simp


/-- C1: over every server of well-formed pages, fetch_paginated returns the
concatenation of the result arrays of the pages it visits, issuing at most 50
page requests: it stops right after the first page without a truthy next-page
link even below the cap, and when every page carries a next link it stops
unconditionally after exactly 50 requests, returning the truncated prefix
accumulated so far. -/
theorem c1_pagination (responses : Nat → Resp) (key : String) (items : Nat → List Json)
    (next : Nat → Option Json) (hk : key ≠ "pages")
    (H : ∀ j, responses j = Resp.ok (mkPage key (items j) (next j))) :
    fetch_paginated responses key 0
        = (pagesUsed (hasNext next) MaxNPages 0,
           Except.ok
             (((List.range' 0 (pagesUsed (hasNext next) MaxNPages 0)).map items).flatten)) ∧
    pagesUsed (hasNext next) MaxNPages 0 ≤ MaxNPages ∧
    (∀ j, j < MaxNPages → hasNext next j = false →
       pagesUsed (hasNext next) MaxNPages 0 ≤ j + 1) ∧
    ((∀ j, j < MaxNPages → hasNext next j = true) →
       pagesUsed (hasNext next) MaxNPages 0 = MaxNPages) := by
  refine ⟨?_, pagesUsed_le (hasNext next) MaxNPages 0, ?_, ?_⟩
  · rw [fetch_paginated, fp_go_pages responses key items next hk H MaxNPages 0 []]
    simp
  · intro j _ hfalse
    exact pagesUsed_stop (hasNext next) MaxNPages 0 j (by simpa using hfalse)
  · intro hall
    exact pagesUsed_full (hasNext next) MaxNPages 0 (fun j hj => by simpa using hall j hj)

/-- Witness for C1 at a concrete server: every request yields a well-formed
users page without a next link, so exactly one request is made and its items
are returned. -/
theorem c1_witness :
    ("users" : String) ≠ "pages" ∧
    (∀ j, c1Responses j = Resp.ok (mkPage "users" (c1Items j) (c1Next j))) ∧
    (fetch_paginated c1Responses "users" 0
        = (pagesUsed (hasNext c1Next) MaxNPages 0,
           Except.ok
             (((List.range' 0 (pagesUsed (hasNext c1Next) MaxNPages 0)).map c1Items).flatten)) ∧
     pagesUsed (hasNext c1Next) MaxNPages 0 ≤ MaxNPages ∧
     (∀ j, j < MaxNPages → hasNext c1Next j = false →
        pagesUsed (hasNext c1Next) MaxNPages 0 ≤ j + 1) ∧
     ((∀ j, j < MaxNPages → hasNext c1Next j = true) →
        pagesUsed (hasNext c1Next) MaxNPages 0 = MaxNPages)) :=
  ⟨by decide, fun j => rfl,
   c1_pagination c1Responses "users" c1Items c1Next (by decide) (fun j => rfl)⟩

end Intercom
